import Mathlib

/-!
Verification of the request authentication and authorization gateway of
`render-mcp-bridge`, shallowly embedded from the JavaScript sources:

* `middleware/auth.js` (in `src/middleware/metrics.js`, second module):
  `verifyToken`, `extractBearerToken`, `verifyBasicAuth`,
  `hasRequiredScopes`, `authenticate`, and the startup production-safety
  check for the Basic-Auth fallback flag.
* `middleware/scopes.js` (in `src/unnamed/part_001`): `parseScopes`,
  `hasAllScopes`, `hasAnyScope`, `getMissingScopes`, `requireScopes`,
  `requireToolsExec` and the `MCP_SCOPES` constants.
* `middleware/rateLimiting.js` (in `src/middleware/metrics.js`, third
  module): the `createRateLimiter` denial handler and its
  `retry_after` field.

JavaScript is modelled as follows: an environment variable or object field
that may be `undefined` is an `Option String`; JavaScript truthiness of
such a value is `optFalsy` (`undefined` and `""` are falsy);
`String.prototype.split(sep)` for a one-character separator is `jsSplit`
(defined below by structural recursion so that concrete instances reduce
in the kernel); template interpolation of a possibly-undefined value
prints `"undefined"` (`jsTemplate`).  The external `jsonwebtoken` library
call (`jwt.verify`) is parameterised by its callback outcome
(`JwtLibResult`), and the external base64 decoder (`Buffer.from`) by a
function argument `decode`; everything downstream of those calls is
translated from the repository source.
-/

/-- JavaScript falsiness of a possibly-undefined string:
`undefined` and the empty string are falsy. -/
def optFalsy (o : Option String) : Bool :=
  match o with
  | none => true
  | some s => s == ""

/-- `x || d` for a possibly-undefined string `x` and a default `d`,
as in `process.env.NODE_ENV || 'development'`. -/
def jsOrDefault (v : Option String) (d : String) : String :=
  match v with
  | none => d
  | some s => if s == "" then d else s

/-- JavaScript template interpolation of a possibly-undefined string:
`undefined` prints as the string `"undefined"`. -/
def jsTemplate (o : Option String) : String :=
  match o with
  | none => "undefined"
  | some s => s

/-- Split a character list at every occurrence of `sep`; `acc` holds the
current fragment reversed.  This is the semantics of JavaScript
`String.prototype.split` with a one-character separator (an empty input
yields one empty fragment, adjacent separators yield empty fragments). -/
def splitAux (sep : Char) : List Char → List Char → List (List Char)
  | [], acc => [acc.reverse]
  | c :: rest, acc =>
    if c = sep then acc.reverse :: splitAux sep rest []
    else splitAux sep rest (c :: acc)

/-- JavaScript `s.split(sep)` for a one-character separator `sep`. -/
def jsSplit (s : String) (sep : Char) : List String :=
  (splitAux sep s.toList []).map (fun l => String.mk l)

/-- JavaScript `s.startsWith(pre)`. -/
def jsStartsWith (s pre : String) : Bool :=
  pre.toList.isPrefixOf s.toList

/-! ### Startup configuration (`middleware/auth.js`, lines 189-204) -/

/-- `NODE_ENV = process.env.NODE_ENV || 'development'`. -/
def envNodeEnv (raw : Option String) : String :=
  jsOrDefault raw "development"

/-- `ENABLE_BASIC_AUTH_FALLBACK = process.env.ENABLE_BASIC_AUTH_FALLBACK === 'true'`. -/
def envBasicFallback (raw : Option String) : Bool :=
  raw == some "true"

/-- The module-initialization production safety check
(`if (NODE_ENV === 'production' && ENABLE_BASIC_AUTH_FALLBACK) process.exit(1)`).
Returns `true` exactly when the process exits before serving any request. -/
def startupExits (nodeEnvRaw fallbackRaw : Option String) : Bool :=
  envNodeEnv nodeEnvRaw == "production" && envBasicFallback fallbackRaw

/-! ### Scope helpers (`middleware/scopes.js`) -/

/-- The JavaScript value passed around as a scope collection:
`undefined`/`null`, a space-separated string, or an array of strings. -/
inductive ScopesVal where
  | undef : ScopesVal
  | str (s : String) : ScopesVal
  | arr (l : List String) : ScopesVal
deriving DecidableEq

/-- `parseScopes`: `undefined` gives `[]`, an array is returned as is, a
string is split on spaces with empty fragments removed (`filter(Boolean)`). -/
def parseScopes (scopes : ScopesVal) : List String :=
  match scopes with
  | .undef => []
  | .arr l => l
  | .str s => if s == "" then [] else (jsSplit s ' ').filter (fun x => x != "")

/-- `hasAllScopes(userScopes, requiredScopes)`: every required scope must be
a member of the user's parsed scope list; an empty requirement passes. -/
def hasAllScopes (userScopes requiredScopes : ScopesVal) : Bool :=
  let userScopeArray := parseScopes userScopes
  let requiredScopeArray := parseScopes requiredScopes
  if requiredScopeArray.isEmpty then true
  else requiredScopeArray.all (fun scope => userScopeArray.contains scope)

/-- `hasAnyScope(userScopes, requiredScopes)`: at least one required scope
must be a member of the user's parsed scope list; an empty requirement passes. -/
def hasAnyScope (userScopes requiredScopes : ScopesVal) : Bool :=
  let userScopeArray := parseScopes userScopes
  let requiredScopeArray := parseScopes requiredScopes
  if requiredScopeArray.isEmpty then true
  else requiredScopeArray.any (fun scope => userScopeArray.contains scope)

/-- `getMissingScopes(userScopes, requiredScopes)`. -/
def getMissingScopes (userScopes requiredScopes : ScopesVal) : List String :=
  let userScopeArray := parseScopes userScopes
  let requiredScopeArray := parseScopes requiredScopes
  requiredScopeArray.filter (fun scope => !(userScopeArray.contains scope))

/-- Outcome of the `requireScopes` middleware: respond 401, respond 403
with the missing scopes, or call `next()`. -/
inductive ScopeOutcome where
  | unauthorized : ScopeOutcome
  | forbidden (missing : List String) : ScopeOutcome
  | next : ScopeOutcome
deriving DecidableEq

/-- The `requireScopes(requiredScopes, { mode })` middleware.  `auth` is the
request's authentication state: `none` when neither `req.user` nor `req.auth`
is present, otherwise the scope collection the middleware reads from the
request. -/
def requireScopes (requiredScopes : ScopesVal) (mode : String)
    (auth : Option ScopesVal) : ScopeOutcome :=
  match auth with
  | none => .unauthorized
  | some userScopes =>
    let hasRequired :=
      if mode == "any" then hasAnyScope userScopes requiredScopes
      else hasAllScopes userScopes requiredScopes
    if hasRequired then .next
    else .forbidden (getMissingScopes userScopes requiredScopes)

/-- The required-scope list of `requireToolsExec()`: the canonical execute
scope, admin, and the legacy aliases, checked in `any` mode. -/
def requireToolsExecScopes : List String :=
  ["mcp:tools.exec", "mcp:admin", "mcp:tools", "mcp:tools:call", "mcp:write", "mcp:process"]

/-- `requireToolsExec()` middleware. -/
def requireToolsExec (auth : Option ScopesVal) : ScopeOutcome :=
  requireScopes (.arr requireToolsExecScopes) "any" auth

/-- Modelled from the spec (§4.3): the Scope Alias Table, mapping each
deprecated scope name to its canonical equivalent, as documented in the
`MCP_SCOPES` comments. -/
def specScopeAliasTable (s : String) : List String :=
  if s == "mcp:search" then ["mcp:tools.read"]
  else if s == "mcp:fetch" then ["mcp:tools.read"]
  else if s == "mcp:read" then ["mcp:tools.read"]
  else if s == "mcp:process" then ["mcp:tools.exec"]
  else if s == "mcp:write" then ["mcp:tools.exec"]
  else if s == "mcp:tools" then ["mcp:tools.exec"]
  else if s == "mcp:tools:call" then ["mcp:tools.exec"]
  else []

/-- Modelled from the spec (§4.3): the comparison set is the union of the
literal scopes held and their canonical equivalents under the alias table. -/
def specExpandHeldScopes (held : List String) : List String :=
  held ++ (held.map specScopeAliasTable).flatten

/-- Modelled from the spec (§4.3): `all`-mode authorization over the
alias-expanded comparison set. -/
def specAuthorizeAll (held required : List String) : Bool :=
  required.all (fun s => (specExpandHeldScopes held).contains s)

/-! ### Token verification (`middleware/auth.js`) -/

/-- The decoded JWT payload as read by the middleware; every claim the code
touches may be absent. -/
structure DecodedToken where
  sub : Option String
  aud : Option String
  iss : Option String
  scope : Option String
  exp : Option Nat
  jti : Option String
deriving DecidableEq

/-- Outcome of the external `jwt.verify` callback: a decoded payload, or an
error carrying the library error's `name` and `message`. -/
inductive JwtLibResult where
  | ok (d : DecodedToken) : JwtLibResult
  | errNamed (name message : String) : JwtLibResult
deriving DecidableEq

/-- The gateway's environment configuration, after the module-level
env-var reads. -/
structure AuthConfig where
  nodeEnv : Option String
  audience : Option String
  issuer : Option String
  jwksUri : Option String
  enableBasicFallback : Bool
  basicUser : Option String
  basicPass : Option String
deriving DecidableEq

/-- Effective `NODE_ENV` of a configuration. -/
def nodeEnvEff (cfg : AuthConfig) : String :=
  envNodeEnv cfg.nodeEnv

/-- `!AUTH_AUDIENCE || !AUTH_ISSUER || !JWKS_URI`. -/
def authConfigIncomplete (cfg : AuthConfig) : Bool :=
  optFalsy cfg.audience || optFalsy cfg.issuer || optFalsy cfg.jwksUri

/-- `verifyToken`: the production configuration guard, the mapping of
library errors to rejection messages, and the required-claim and
audience/issuer pinning checks (lines 248-305).  The signature/temporal
validation performed by `jwt.verify` itself is the `lib` argument. -/
def verifyToken (cfg : AuthConfig) (lib : JwtLibResult) : Except String DecodedToken :=
  if nodeEnvEff cfg == "production" && authConfigIncomplete cfg then
    .error "Auth configuration incomplete in production mode"
  else
    match lib with
    | .errNamed name message =>
      if name == "TokenExpiredError" then .error "Token expired"
      else if name == "JsonWebTokenError" then .error "Invalid token"
      else if name == "NotBeforeError" then .error "Token not yet valid"
      else .error message
    | .ok decoded =>
      if optFalsy decoded.sub then .error "Token missing required sub claim"
      else if optFalsy decoded.aud then .error "Token missing required aud claim"
      else if optFalsy decoded.iss then .error "Token missing required iss claim"
      else if decoded.aud != cfg.audience then
        .error ("Invalid audience: expected " ++ jsTemplate cfg.audience
          ++ ", got " ++ jsTemplate decoded.aud)
      else if decoded.iss != cfg.issuer then
        .error ("Invalid issuer: expected " ++ jsTemplate cfg.issuer
          ++ ", got " ++ jsTemplate decoded.iss)
      else .ok decoded

/-- `extractBearerToken(authHeader)` (lines 312-321). -/
def extractBearerToken (authHeader : Option String) : Option String :=
  match authHeader with
  | none => none
  | some s =>
    if s == "" then none
    else
      let parts := jsSplit s ' '
      if parts.length != 2 || parts.headD "" != "Bearer" then none
      else some (parts.getD 1 "")

/-- `verifyBasicAuth(authHeader)` (lines 328-346).  `decode` is the external
`Buffer.from(-, 'base64').toString('ascii')` decoder. -/
def verifyBasicAuth (decode : String → String) (cfg : AuthConfig)
    (authHeader : Option String) : Bool :=
  if !cfg.enableBasicFallback || optFalsy cfg.basicUser || optFalsy cfg.basicPass then
    false
  else
    match authHeader with
    | none => false
    | some s =>
      if !(jsStartsWith s "Basic ") then false
      else
        let base64Credentials := (jsSplit s ' ').getD 1 ""
        let credentials := decode base64Credentials
        let credParts := jsSplit credentials ':'
        match cfg.basicUser, cfg.basicPass with
        | some u, some p => credParts.headD "" == u && credParts.get? 1 == some p
        | _, _ => false

/-- The scope list of a decoded token:
`decoded.scope ? decoded.scope.split(' ') : []`. -/
def jsScopeSplit (scope : Option String) : List String :=
  match scope with
  | none => []
  | some s => if s == "" then [] else jsSplit s ' '

/-- `hasRequiredScopes(decodedToken, requiredScopes)` (lines 354-361). -/
def hasRequiredScopes (decodedToken : DecodedToken) (requiredScopes : List String) : Bool :=
  if requiredScopes.isEmpty then true
  else
    let tokenScopes := jsScopeSplit decodedToken.scope
    requiredScopes.all (fun scope => tokenScopes.contains scope)

/-- The identity attached to the request (`req.auth`). -/
structure Principal where
  sub : String
  scopes : List String
  authMethod : Option String
deriving DecidableEq

/-- The synthetic identity of the development-mode bypass. -/
def devPrincipal : Principal :=
  ⟨"dev-user", ["mcp:tools.exec", "mcp:tools.read", "mcp:admin"], none⟩

/-- The identity attached on a successful Basic-Auth fallback. -/
def basicPrincipal : Principal :=
  ⟨"basic-auth-user", ["mcp:tools.exec", "mcp:tools.read"], some "basic"⟩

/-- The identity attached on a successful JWT verification. -/
def jwtPrincipal (d : DecodedToken) : Principal :=
  ⟨(d.sub).getD "", jsScopeSplit d.scope, some "jwt"⟩

/-- Outcome of the `authenticate` middleware: a response (status, `error`
field, `message` field) sent without invoking the downstream handler, or
`next()` with the identity attached to the request (`none` = anonymous). -/
inductive AuthOutcome where
  | respond (status : Nat) (error message : String) : AuthOutcome
  | next (auth : Option Principal) : AuthOutcome
deriving DecidableEq

/-- Options of `authenticate(options)`. -/
structure AuthOptions where
  requiredScopes : List String
  optional : Bool
  enforceAuth : Bool
deriving DecidableEq

/-- The guard `(NODE_ENV === 'production' || enforceAuth) && (config incomplete)`
that yields a 500 response (lines 378-386). -/
def misconfigGuard (cfg : AuthConfig) (opts : AuthOptions) : Bool :=
  (nodeEnvEff cfg == "production" || opts.enforceAuth) && authConfigIncomplete cfg

/-- The development-mode bypass guard (lines 389-394). -/
def devBypassGuard (cfg : AuthConfig) (opts : AuthOptions) : Bool :=
  !opts.enforceAuth && nodeEnvEff cfg != "production"
    && optFalsy cfg.issuer && !cfg.enableBasicFallback

/-- The 401 message for a malformed Authorization header. -/
def invalidFormatMsg : String :=
  "Invalid Authorization header format. Expected: Bearer <token>"

/-- The `authenticate(options)` middleware (lines 370-473), as a function of
the configuration, the options, the base64 decoder, the request's
`Authorization` header, and the `jwt.verify` outcome for the presented
token. -/
def authenticate (cfg : AuthConfig) (opts : AuthOptions) (decode : String → String)
    (authHeader : Option String) (lib : JwtLibResult) : AuthOutcome :=
  if misconfigGuard cfg opts then
    .respond 500 "internal_error" "Authentication not configured"
  else if devBypassGuard cfg opts then
    .next (some devPrincipal)
  else if optFalsy authHeader then
    (if opts.optional then .next none
     else .respond 401 "unauthorized" "Missing Authorization header")
  else if cfg.enableBasicFallback && jsStartsWith (authHeader.getD "") "Basic " then
    (if verifyBasicAuth decode cfg authHeader then .next (some basicPrincipal)
     else .respond 401 "unauthorized" "Invalid Basic Auth credentials")
  else
    match extractBearerToken authHeader with
    | none => .respond 401 "unauthorized" invalidFormatMsg
    | some token =>
      if token == "" then .respond 401 "unauthorized" invalidFormatMsg
      else
        match verifyToken cfg lib with
        | .error e =>
          .respond 401 "unauthorized" (if e == "" then "Invalid or expired token" else e)
        | .ok decoded =>
          if !hasRequiredScopes decoded opts.requiredScopes then
            .respond 403 "forbidden" "Missing required scopes"
          else .next (some (jwtPrincipal decoded))

/-! ### Rate limiting (`middleware/rateLimiting.js`) -/

/-- `Math.ceil(windowMs / 1000)`. -/
def retryAfterSeconds (windowMs : Nat) : Nat :=
  (windowMs + 999) / 1000

/-- The JSON body sent by the `createRateLimiter` denial handler. -/
structure RateLimitResponse where
  status : Nat
  error : String
  message : String
  retry_after : Nat
deriving DecidableEq

/-- The denial handler of `createRateLimiter({ windowMs, ... })`
(lines 525-534).  `elapsedMs` records how far the denied key's window has
already advanced at the moment of denial; the handler closure reads only
`windowMs`, so the response is built from `windowMs` alone. -/
def rateLimitHandler (windowMs _elapsedMs : Nat) : RateLimitResponse :=
  ⟨429, "rate_limit_exceeded", "Too many requests, please try again later",
    retryAfterSeconds windowMs⟩

/-- Modelled from the spec (§4.4, "report the number of seconds remaining
until the window resets"): the seconds remaining in a window of `windowMs`
milliseconds of which `elapsedMs` have already elapsed. -/
def specWindowRemainingSeconds (windowMs elapsedMs : Nat) : Nat :=
  (windowMs - elapsedMs + 999) / 1000

/-! ### Concrete fixtures used by closed theorems -/

/-- A fully configured production environment. -/
def cfgProd : AuthConfig :=
  ⟨some "production", some "api", some "https://issuer.example/", some "https://issuer.example/jwks",
    false, none, none⟩

/-- A development environment with no issuer configured and the fallback off. -/
def cfgDev : AuthConfig :=
  ⟨none, none, none, none, false, none, none⟩

/-- Default middleware options (`authenticate()` with no arguments). -/
def optsDefault : AuthOptions := ⟨[], false, false⟩

/-- A well-formed decoded token whose audience is not the configured one. -/
def tokenBadAud : DecodedToken :=
  ⟨some "alice", some "evil", some "https://issuer.example/", some "mcp:tools.read", some 99, none⟩

/-! ### C2 -/

/-- C2: the process exits during module initialization exactly when the raw
`NODE_ENV` environment variable is `production` and the raw
`ENABLE_BASIC_AUTH_FALLBACK` variable is `true`; under every other
combination of the two settings, startup proceeds. -/
theorem startupExits_iff_production_and_fallback (nodeEnvRaw fallbackRaw : Option String) :
    startupExits nodeEnvRaw fallbackRaw = true ↔
      nodeEnvRaw = some "production" ∧ fallbackRaw = some "true" := by
  constructor
  · intro h
    simp only [startupExits, envNodeEnv, envBasicFallback, Bool.and_eq_true, beq_iff_eq] at h
    obtain ⟨h1, h2⟩ := h
    refine ⟨?_, h2⟩
    cases nodeEnvRaw with
    | none => simp [jsOrDefault] at h1
    | some s =>
      simp only [jsOrDefault] at h1
      by_cases hs : s == ""
      · rw [if_pos hs] at h1; exact absurd h1 (by decide)
      · rw [if_neg hs] at h1; rw [h1]
  · rintro ⟨h1, h2⟩
    subst h1; subst h2
    decide

/-! ### C8 -/

/-- C8: for every user scope collection and decoded token, an empty
required-scope set authorizes in both `all` mode (`hasAllScopes`,
`hasRequiredScopes`) and `any` mode (`hasAnyScope`). -/
theorem empty_required_scopes_authorize (u : ScopesVal) (d : DecodedToken) :
    hasAllScopes u (.arr []) = true ∧ hasAnyScope u (.arr []) = true ∧
      hasRequiredScopes d [] = true := by
  refine ⟨?_, ?_, ?_⟩ <;> rfl

/-! ### C4 -/

/-- C4 counterexample: a 60000 ms window with a 100-request maximum, denied
at an instant when the window has already elapsed 30000 ms, so 30 seconds
remain until the reset; the handler still reports `retry_after = 60`, the
full window, not a value strictly below it. -/
theorem rateLimit_retryAfter_not_remaining :
    (rateLimitHandler 60000 30000).retry_after = 60 ∧
      specWindowRemainingSeconds 60000 30000 = 30 ∧
      ¬((rateLimitHandler 60000 30000).retry_after < 60) ∧
      (rateLimitHandler 60000 30000).retry_after ≠ specWindowRemainingSeconds 60000 30000 := by
  refine ⟨rfl, rfl, by decide, by decide⟩

/-- C4 amended: the 429 denial response always reports
`ceil(windowMs / 1000)` — a value that is positive for any positive window,
bounds the window from above (`windowMs ≤ retry_after * 1000`), exceeds it
by less than one second, and is independent of how far the window has
elapsed. -/
theorem rateLimit_retryAfter_is_full_window (windowMs e1 e2 : Nat) (hw : 0 < windowMs) :
    0 < (rateLimitHandler windowMs e1).retry_after ∧
      windowMs ≤ (rateLimitHandler windowMs e1).retry_after * 1000 ∧
      (rateLimitHandler windowMs e1).retry_after * 1000 < windowMs + 1000 ∧
      (rateLimitHandler windowMs e1).retry_after = (rateLimitHandler windowMs e2).retry_after := by
  have h : (rateLimitHandler windowMs e1).retry_after = (windowMs + 999) / 1000 := rfl
  refine ⟨?_, ?_, ?_, rfl⟩ <;> rw [h] <;> omega

/-- C4 amended witness: the preset 60-second, 100-request window reports
`retry_after = 60`. -/
theorem rateLimit_retryAfter_is_full_window_witness :
    0 < (rateLimitHandler 60000 30000).retry_after ∧
      60000 ≤ (rateLimitHandler 60000 30000).retry_after * 1000 ∧
      (rateLimitHandler 60000 30000).retry_after * 1000 < 60000 + 1000 ∧
      (rateLimitHandler 60000 30000).retry_after = (rateLimitHandler 60000 0).retry_after :=
  rateLimit_retryAfter_is_full_window 60000 30000 0 (by decide)

/-! ### C5 -/

/-- C5 counterexample: a principal holding only the legacy scope
`mcp:write` against a policy requiring the canonical scope `mcp:tools.exec`
in `all` mode.  The spec's alias-expanded comparison set authorizes
(`mcp:write` expands to `mcp:tools.exec`), but the code's comparison uses
only the literal held scopes and denies with a 403 — so authorization does
not expand held scopes through the alias table before comparison. -/
theorem scope_alias_expansion_refuted :
    hasAllScopes (.str "mcp:write") (.arr ["mcp:tools.exec"]) = false ∧
      requireScopes (.arr ["mcp:tools.exec"]) "all" (some (.str "mcp:write"))
        = .forbidden ["mcp:tools.exec"] ∧
      specAuthorizeAll ["mcp:write"] ["mcp:tools.exec"] = true := by
  refine ⟨by decide, by decide, by decide⟩

/-- C5 amended: the code performs no alias expansion of held scopes;
backward compatibility is provided by route policies that enumerate the
legacy alias scopes as `any`-mode alternatives.  In particular
`requireToolsExec` authorizes a principal holding only `mcp:write`, even
though the same principal fails an `all`-mode comparison against the
canonical `mcp:tools.exec` alone. -/
theorem requireToolsExec_accepts_legacy_write :
    requireToolsExec (some (.str "mcp:write")) = .next ∧
      hasAnyScope (.str "mcp:write") (.arr requireToolsExecScopes) = true ∧
      hasAllScopes (.str "mcp:write") (.arr ["mcp:tools.exec"]) = false := by
  refine ⟨by decide, by decide, by decide⟩

/-! ### C7 -/

/-- Membership tests are invariant under permutation of the scanned list. -/
theorem contains_eq_of_perm {l1 l2 : List String} (h : l1.Perm l2) (s : String) :
    l1.contains s = l2.contains s := by
  rw [Bool.eq_iff_iff]
  simp [h.mem_iff]

/-- C7: permuting the held-scope sequence never changes the scope
authorization outcome, in either mode, both for the raw checks and for the
full `requireScopes` middleware decision (including the reported missing
scopes); the check is a pure function of its inputs, so re-evaluating it on
the same inputs trivially yields the same outcome. -/
theorem scope_authorization_order_independent (mode : String) (required : ScopesVal)
    (l1 l2 : List String) (hperm : l1.Perm l2) :
    hasAllScopes (.arr l1) required = hasAllScopes (.arr l2) required ∧
      hasAnyScope (.arr l1) required = hasAnyScope (.arr l2) required ∧
      requireScopes required mode (some (.arr l1))
        = requireScopes required mode (some (.arr l2)) := by
  have hc : ∀ s : String, l1.contains s = l2.contains s :=
    fun s => contains_eq_of_perm hperm s
  have hfun : (fun scope => l1.contains scope) = (fun scope => l2.contains scope) :=
    funext hc
  have hnfun : (fun scope => !(l1.contains scope)) = (fun scope => !(l2.contains scope)) := by
    funext s; rw [hc s]
  have hAll : hasAllScopes (.arr l1) required = hasAllScopes (.arr l2) required := by
    simp only [hasAllScopes, parseScopes, hfun]
  have hAny : hasAnyScope (.arr l1) required = hasAnyScope (.arr l2) required := by
    simp only [hasAnyScope, parseScopes, hfun]
  have hMiss : getMissingScopes (.arr l1) required = getMissingScopes (.arr l2) required := by
    simp only [getMissingScopes, parseScopes, hnfun]
  exact ⟨hAll, hAny, by simp only [requireScopes, hAll, hAny, hMiss]⟩

/-- C7 witness: the concrete held-scope sequences `["mcp:admin", "mcp:write"]`
and `["mcp:write", "mcp:admin"]` are permutations and get identical outcomes
against the policy requiring `mcp:admin` in `all` mode. -/
theorem scope_authorization_order_independent_witness :
    hasAllScopes (.arr ["mcp:admin", "mcp:write"]) (.arr ["mcp:admin"])
        = hasAllScopes (.arr ["mcp:write", "mcp:admin"]) (.arr ["mcp:admin"]) ∧
      hasAnyScope (.arr ["mcp:admin", "mcp:write"]) (.arr ["mcp:admin"])
        = hasAnyScope (.arr ["mcp:write", "mcp:admin"]) (.arr ["mcp:admin"]) ∧
      requireScopes (.arr ["mcp:admin"]) "all" (some (.arr ["mcp:admin", "mcp:write"]))
        = requireScopes (.arr ["mcp:admin"]) "all" (some (.arr ["mcp:write", "mcp:admin"])) :=
  scope_authorization_order_independent "all" (.arr ["mcp:admin"])
    ["mcp:admin", "mcp:write"] ["mcp:write", "mcp:admin"]
    (List.Perm.swap "mcp:write" "mcp:admin" [])

/-! ### C9 -/

/-- When the misconfiguration and development-bypass guards do not fire, a
truthy Authorization header is present, and the Basic-fallback branch is not
taken, `authenticate` proceeds to Bearer extraction and JWT verification. -/
theorem authenticate_bearer_branch (cfg : AuthConfig) (opts : AuthOptions)
    (decode : String → String) (authHeader : Option String) (lib : JwtLibResult)
    (hm : misconfigGuard cfg opts = false)
    (hd : devBypassGuard cfg opts = false)
    (ho : optFalsy authHeader = false)
    (hb : (cfg.enableBasicFallback && jsStartsWith (authHeader.getD "") "Basic ") = false) :
    authenticate cfg opts decode authHeader lib =
      match extractBearerToken authHeader with
      | none => .respond 401 "unauthorized" invalidFormatMsg
      | some token =>
        if token == "" then .respond 401 "unauthorized" invalidFormatMsg
        else
          match verifyToken cfg lib with
          | .error e =>
            .respond 401 "unauthorized" (if e == "" then "Invalid or expired token" else e)
          | .ok decoded =>
            if !hasRequiredScopes decoded opts.requiredScopes then
              .respond 403 "forbidden" "Missing required scopes"
            else .next (some (jwtPrincipal decoded)) := by
  unfold authenticate
  rw [hm, hd, ho, hb]
  simp

/-- C9: `extractBearerToken` returns a token exactly when the header is
present and splits on spaces into exactly two parts whose first part is the
case-sensitive string `Bearer`; any other shape yields `null`, and in that
case the middleware (past its configuration guards, with a truthy header
and no Basic fallback) responds 401 with the format message, independent of
the JWT verifier's outcome. -/
theorem extractBearerToken_two_parts (authHeader : Option String) :
    ((extractBearerToken authHeader).isSome = true ↔
      ∃ s, authHeader = some s ∧ (jsSplit s ' ').length = 2 ∧
        (jsSplit s ' ').headD "" = "Bearer") ∧
    (∀ cfg opts decode lib,
      extractBearerToken authHeader = none →
      misconfigGuard cfg opts = false →
      devBypassGuard cfg opts = false →
      optFalsy authHeader = false →
      (cfg.enableBasicFallback && jsStartsWith (authHeader.getD "") "Basic ") = false →
      authenticate cfg opts decode authHeader lib
        = .respond 401 "unauthorized" invalidFormatMsg) := by
  constructor
  · cases authHeader with
    | none => simp [extractBearerToken]
    | some s =>
      simp only [extractBearerToken, Option.some.injEq]
      by_cases hs : (s == "") = true
      · rw [if_pos hs]
        have hse : s = "" := by simpa using hs
        subst hse
        constructor
        · intro h; simp at h
        · rintro ⟨s', hs', hlen, _⟩
          cases hs'
          simp [jsSplit, splitAux] at hlen
      · rw [if_neg hs]
        by_cases hcond :
            ((jsSplit s ' ').length != 2 || (jsSplit s ' ').headD "" != "Bearer") = true
        · rw [if_pos hcond]
          simp only [Option.isSome_none, Bool.false_eq_true, false_iff]
          rintro ⟨s', hs', hlen, hhead⟩
          cases hs'
          simp only [Bool.or_eq_true, bne_iff_ne, ne_eq] at hcond
          rcases hcond with h | h
          · exact h hlen
          · exact h hhead
        · rw [if_neg hcond]
          simp only [Option.isSome_some, true_iff]
          simp only [Bool.or_eq_true, bne_iff_ne, ne_eq, not_or, not_not] at hcond
          exact ⟨s, rfl, hcond.1, hcond.2⟩
  · intro cfg opts decode lib hex hm hd ho hb
    rw [authenticate_bearer_branch cfg opts decode authHeader lib hm hd ho hb, hex]

/-- C9 witness: the header `Token abc` (wrong scheme) yields `null` from
`extractBearerToken`, and under the fully configured production environment
the middleware responds 401 with the format message. -/
theorem extractBearerToken_two_parts_witness :
    extractBearerToken (some "Token abc") = none ∧
      authenticate cfgProd optsDefault id (some "Token abc")
          (.errNamed "JsonWebTokenError" "invalid signature")
        = .respond 401 "unauthorized" invalidFormatMsg :=
  ⟨by decide,
    (extractBearerToken_two_parts (some "Token abc")).2 cfgProd optsDefault id
      (.errNamed "JsonWebTokenError" "invalid signature")
      (by decide) (by decide) (by decide) (by decide) (by decide)⟩

/-! ### C1 -/

/-- C1: any decoded token whose `aud` claim differs from the configured
expected audience is rejected by `verifyToken` — even when the signature
was valid (the library outcome is `ok`) and regardless of the other claims
— and the gateway, on the Bearer path, responds 401. -/
theorem verifyToken_rejects_audience_mismatch (cfg : AuthConfig) (opts : AuthOptions)
    (decode : String → String) (authHeader : Option String) (t : String) (d : DecodedToken)
    (haud : d.aud ≠ cfg.audience)
    (hm : misconfigGuard cfg opts = false)
    (hd : devBypassGuard cfg opts = false)
    (ho : optFalsy authHeader = false)
    (hb : (cfg.enableBasicFallback && jsStartsWith (authHeader.getD "") "Basic ") = false)
    (hex : extractBearerToken authHeader = some t)
    (ht : (t == "") = false) :
    (∃ e, verifyToken cfg (.ok d) = .error e) ∧
      ∃ m, authenticate cfg opts decode authHeader (.ok d) = .respond 401 "unauthorized" m := by
  have herr : ∃ e, verifyToken cfg (.ok d) = .error e := by
    unfold verifyToken
    by_cases hg : (nodeEnvEff cfg == "production" && authConfigIncomplete cfg) = true
    · rw [if_pos hg]; exact ⟨_, rfl⟩
    · rw [if_neg hg]
      dsimp only
      by_cases h1 : optFalsy d.sub = true
      · rw [if_pos h1]; exact ⟨_, rfl⟩
      · rw [if_neg h1]
        by_cases h2 : optFalsy d.aud = true
        · rw [if_pos h2]; exact ⟨_, rfl⟩
        · rw [if_neg h2]
          by_cases h3 : optFalsy d.iss = true
          · rw [if_pos h3]; exact ⟨_, rfl⟩
          · rw [if_neg h3]
            rw [if_pos (by simpa [bne_iff_ne] using haud)]
            exact ⟨_, rfl⟩
  obtain ⟨e, he⟩ := herr
  refine ⟨⟨e, he⟩, ?_⟩
  rw [authenticate_bearer_branch cfg opts decode authHeader (.ok d) hm hd ho hb, hex]
  dsimp only
  rw [if_neg (by simp [ht]), he]
  exact ⟨_, rfl⟩

/-- C1 witness: in the configured production environment expecting audience
`api`, a signature-valid token with audience `evil` and all other claims
present is rejected and the gateway responds 401. -/
theorem verifyToken_rejects_audience_mismatch_witness :
    (∃ e, verifyToken cfgProd (.ok tokenBadAud) = .error e) ∧
      ∃ m, authenticate cfgProd optsDefault id (some "Bearer abc") (.ok tokenBadAud)
        = .respond 401 "unauthorized" m :=
  verifyToken_rejects_audience_mismatch cfgProd optsDefault id (some "Bearer abc") "abc"
    tokenBadAud (by decide) (by decide) (by decide) (by decide) (by decide) (by decide)
    (by decide)

/-! ### C3 -/

/-- C3 counterexample: two authentication failures on the same route — an
expired token and an audience mismatch — both get status 401, but the
response bodies carry different messages, and the audience-mismatch body
discloses the expected and presented audiences; the external message is not
uniform and does disclose which validation step failed. -/
theorem auth_error_message_varies :
    authenticate cfgProd optsDefault id (some "Bearer t1")
        (.errNamed "TokenExpiredError" "jwt expired")
      = .respond 401 "unauthorized" "Token expired" ∧
      authenticate cfgProd optsDefault id (some "Bearer t1") (.ok tokenBadAud)
        = .respond 401 "unauthorized" "Invalid audience: expected api, got evil" ∧
      ("Token expired" : String) ≠ "Invalid audience: expected api, got evil" := by
  refine ⟨by decide, by decide, by decide⟩

/-- C3 amended: every authentication-stage failure is surfaced with status
401 and the uniform machine-readable error code `unauthorized`, but the
human-readable `message` field is stage-specific (it carries the verifier's
error message) rather than generic. -/
theorem auth_failures_uniform_401_code (cfg : AuthConfig) (opts : AuthOptions)
    (decode : String → String) (authHeader : Option String) (lib : JwtLibResult)
    (s : Nat) (ec m : String)
    (h : authenticate cfg opts decode authHeader lib = .respond s ec m)
    (hs : s = 401) : ec = "unauthorized" := by
  subst hs
  unfold authenticate at h
  repeat' split at h
  all_goals simp_all

/-- C3 amended witness: the missing-header failure carries status 401 and
error code `unauthorized`. -/
theorem auth_failures_uniform_401_code_witness :
    authenticate cfgProd optsDefault id none (.errNamed "" "")
        = .respond 401 "unauthorized" "Missing Authorization header" ∧
      ("unauthorized" : String) = "unauthorized" :=
  ⟨by decide,
    auth_failures_uniform_401_code cfgProd optsDefault id none (.errNamed "" "")
      401 "unauthorized" "Missing Authorization header" (by decide) rfl⟩

/-! ### C6 -/

/-- C6 counterexample: in a development environment with no issuer
configured and the fallback off, a request with no Authorization header to
a non-optional route is forwarded to the downstream handler with a
synthetic authenticated dev principal — not rejected with 401. -/
theorem no_credential_dev_bypass_counterexample :
    authenticate cfgDev optsDefault id none (.errNamed "" "")
        = .next (some devPrincipal) ∧
      authenticate cfgDev optsDefault id none (.errNamed "" "")
        ≠ .respond 401 "unauthorized" "Missing Authorization header" := by
  refine ⟨by decide, by decide⟩

/-- C6 amended: provided the enforcing-misconfiguration guard (500) and the
development bypass do not apply, a request carrying no Authorization header
is rejected with 401 and the downstream handler is never invoked, unless
the route is optional-auth, in which case it proceeds with no authenticated
principal. -/
theorem no_credential_401_unless_optional (cfg : AuthConfig) (opts : AuthOptions)
    (decode : String → String) (lib : JwtLibResult)
    (hm : misconfigGuard cfg opts = false)
    (hd : devBypassGuard cfg opts = false) :
    authenticate cfg opts decode none lib =
      if opts.optional then .next none
      else .respond 401 "unauthorized" "Missing Authorization header" := by
  unfold authenticate
  rw [hm, hd]
  simp [optFalsy]

/-- C6 amended witness: in the configured production environment, a
headerless request to a non-optional route gets 401. -/
theorem no_credential_401_unless_optional_witness :
    authenticate cfgProd optsDefault id none (.errNamed "" "")
      = .respond 401 "unauthorized" "Missing Authorization header" := by
  rw [no_credential_401_unless_optional cfgProd optsDefault id (.errNamed "" "")
    (by decide) (by decide)]
  decide

/-! ### C10 -/

/-- C10: `verifyBasicAuth` is default-deny — it returns `false` whenever the
fallback flag is disabled, either configured credential is unset (absent or
empty), or the header does not begin with `Basic `; and whenever it returns
`true`, the flag is on, both credentials are configured non-empty, and the
decoded presented `user:pass` pair matches them exactly. -/
theorem verifyBasicAuth_default_deny (decode : String → String) (cfg : AuthConfig)
    (authHeader : Option String) :
    ((cfg.enableBasicFallback = false ∨ optFalsy cfg.basicUser = true ∨
        optFalsy cfg.basicPass = true ∨
        ∀ s, authHeader = some s → jsStartsWith s "Basic " = false) →
      verifyBasicAuth decode cfg authHeader = false) ∧
    (verifyBasicAuth decode cfg authHeader = true →
      cfg.enableBasicFallback = true ∧
      ∃ u p s, cfg.basicUser = some u ∧ u ≠ "" ∧ cfg.basicPass = some p ∧ p ≠ "" ∧
        authHeader = some s ∧ jsStartsWith s "Basic " = true ∧
        (jsSplit (decode ((jsSplit s ' ').getD 1 "")) ':').headD "" = u ∧
        (jsSplit (decode ((jsSplit s ' ').getD 1 "")) ':').get? 1 = some p) := by
  unfold verifyBasicAuth
  by_cases hg : (!cfg.enableBasicFallback || optFalsy cfg.basicUser
      || optFalsy cfg.basicPass) = true
  · rw [if_pos hg]
    exact ⟨fun _ => rfl, fun h => absurd h (by simp)⟩
  · rw [if_neg hg]
    have hg' : (!cfg.enableBasicFallback || optFalsy cfg.basicUser
        || optFalsy cfg.basicPass) = false := by
      cases hx : (!cfg.enableBasicFallback || optFalsy cfg.basicUser
          || optFalsy cfg.basicPass) with
      | false => rfl
      | true => exact absurd hx hg
    have hfb : cfg.enableBasicFallback = true := by
      cases hx : cfg.enableBasicFallback with
      | true => rfl
      | false => rw [hx] at hg'; simp at hg'
    have hbu : optFalsy cfg.basicUser = false := by
      cases hx : optFalsy cfg.basicUser with
      | false => rfl
      | true => rw [hx] at hg'; simp at hg'
    have hbp : optFalsy cfg.basicPass = false := by
      cases hx : optFalsy cfg.basicPass with
      | false => rfl
      | true => rw [hx] at hg'; simp at hg'
    cases authHeader with
    | none => exact ⟨fun _ => rfl, fun h => absurd h (by simp)⟩
    | some s =>
      dsimp only
      by_cases hws : (!(jsStartsWith s "Basic ")) = true
      · rw [if_pos hws]
        exact ⟨fun _ => rfl, fun h => absurd h (by simp)⟩
      · rw [if_neg hws]
        simp only [Bool.not_eq_true', Bool.not_eq_false] at hws
        cases hu : cfg.basicUser with
        | none => rw [hu] at hbu; simp [optFalsy] at hbu
        | some u =>
          cases hp : cfg.basicPass with
          | none => rw [hp] at hbp; simp [optFalsy] at hbp
          | some p =>
            rw [hu] at hbu; rw [hp] at hbp
            simp only [optFalsy, beq_eq_false_iff_ne, ne_eq] at hbu hbp
            dsimp only
            constructor
            · rintro (h | h | h | h)
              · exact absurd hfb (by simp [h])
              · simp only [optFalsy, beq_iff_eq] at h
                exact absurd h hbu
              · simp only [optFalsy, beq_iff_eq] at h
                exact absurd h hbp
              · exact absurd (h s rfl) (by simp [hws])
            · intro h
              simp only [Bool.and_eq_true, beq_iff_eq] at h
              exact ⟨hfb, u, p, s, rfl, hbu, rfl, hbp, rfl, hws, h.1, h.2⟩

/-- C10 witness: with the fallback flag disabled (production configuration),
even a well-formed Basic header is rejected. -/
theorem verifyBasicAuth_default_deny_witness :
    verifyBasicAuth id cfgProd (some "Basic dXNlcjpwYXNz") = false :=
  (verifyBasicAuth_default_deny id cfgProd (some "Basic dXNlcjpwYXNz")).1 (Or.inl rfl)
